import Mathlib

/-!
Verification development for the rdpq command-queue library (`src/rdpq/rdpq.c`
and `src/rdpq/rdpq_debug.c`): a shallow embedding of the triangle coefficient
computer, the auto-sync engine, the block recorder, the submission glue, the
SYNC_FULL interrupt bridge, and the validator's tile-busy tracking, together
with theorems settling the specified properties.

Modelling conventions: C `uint32_t` values are `ℕ` taken modulo `2 ^ 32`
where overflow matters; C `int32_t` results are either `ℤ` (for the
fixed-point converter) or a 32-bit pattern `ℕ` (for the bit packers);
C `float` inputs are modelled as `ℚ` — every finite float is a rational,
float comparisons agree with rational comparisons, and the only arithmetic
performed on them before conversion in the modelled fragments (multiplication
by the power of two 65536 or 4, and `floor`) is exact in binary floating
point within the clamped ranges, so the embedding is faithful there.
-/

namespace Rdpq

/-! ### Constants from `rdpq.c` -/

def RDPQ_MAX_COMMAND_SIZE : ℕ := 44
def RDPQ_BLOCK_MIN_SIZE : ℕ := 64
def RDPQ_BLOCK_MAX_SIZE : ℕ := 4192

/-! ### `float_to_s16_16` (rdpq.c lines 390-405)

The C source:
```c
int32_t float_to_s16_16(float f) {
    if (f >= 32768.f)  return 0x7FFFFFFF;
    if (f < -32768.f)  return 0x80000000;   // == (int32_t)-2147483648
    return floor(f * 65536.f);
}
```
Multiplication of a float by 65536 (a power of two) is exact while the
product stays finite, and here `|f| <= 32768` bounds the product by `2^31`,
so the rational model computes exactly what the float code computes. -/

def float_to_s16_16 (f : ℚ) : ℤ :=
  if 32768 ≤ f then 0x7FFFFFFF
  else if f < -32768 then -0x80000000
  else ⌊f * 65536⌋

/-! ### Vertex sort and Y quantization in `rdpq_triangle` (rdpq.c 421-428, 667-669) -/

/-- A screen-space vertex as far as the sort is concerned: the fields the
triangle code reads through `v[pos_offset]` (X) and `v[pos_offset+1]` (Y). -/
structure Vtx where
  x : ℚ
  y : ℚ
deriving DecidableEq, Repr

/-- Quantization of a Y coordinate to signed 10.2 fixed point, as performed
by `__rdpq_write_edge_coeffs`: `y1 = floorf(v1[1]*4)/4`. -/
def quantY (y : ℚ) : ℚ := (⌊y * 4⌋ : ℚ) / 4

/-- The vertex reordering in `rdpq_triangle` (rdpq.c 667-669): a three-step
compare-swap network whose comparisons are made on the raw floating-point Y
values `v[pos_offset+1]`:
```c
if( v1[pos_offset + 1] > v2[pos_offset + 1] ) { SWAP(v1, v2); }
if( v2[pos_offset + 1] > v3[pos_offset + 1] ) { SWAP(v2, v3); }
if( v1[pos_offset + 1] > v2[pos_offset + 1] ) { SWAP(v1, v2); }
``` -/
def rdpq_sort3 (v1 v2 v3 : Vtx) : Vtx × Vtx × Vtx :=
  let p1 := if v2.y < v1.y then (v2, v1) else (v1, v2)
  let p2 := if v3.y < p1.2.y then (v3, p1.2) else (p1.2, v3)
  let p3 := if p2.1.y < p1.1.y then (p2.1, p1.1) else (p1.1, p2.1)
  (p3.1, p3.2, p2.2)

/-- Modelled from the spec: the same three-step compare-swap network, but with
the comparisons driven by the quantized Y values ("sort on quantized Y, not
the raw float").  This is the refinement counterpart `rdpq_sort3` is compared
against; it is not code of the repository. -/
def rdpq_sort3_quantized (v1 v2 v3 : Vtx) : Vtx × Vtx × Vtx :=
  let p1 := if quantY v2.y < quantY v1.y then (v2, v1) else (v1, v2)
  let p2 := if quantY v3.y < quantY p1.2.y then (v3, p1.2) else (p1.2, v3)
  let p3 := if quantY p2.1.y < quantY p1.1.y then (p2.1, p1.1) else (p1.1, p2.1)
  (p3.1, p3.2, p2.2)

theorem quantY_mono {a b : ℚ} (hab : a ≤ b) : quantY a ≤ quantY b := by
  unfold quantY
  have h4 : a * 4 ≤ b * 4 := by linarith
  have := Int.floor_le_floor h4
  have hc : ((⌊a * 4⌋ : ℚ)) ≤ ((⌊b * 4⌋ : ℚ)) := by exact_mod_cast this
  linarith

/-- C1 counterexample: the comparisons that drive the vertex sort in
`rdpq_triangle` are NOT made on the quantized Y values: on the concrete
vertices `(x=1, y=0.1)`, `(x=2, y=0)`, `(x=3, y=5)` the code's raw-Y sort
swaps the first two vertices (`0.1 > 0`), while a sort driven by the
quantized Y values (both quantize to `0`) would leave them in place, so the
two reorderings produce different outputs. -/
theorem rdpq_sort3_ne_quantized_sort :
    rdpq_sort3 ⟨1, 1/10⟩ ⟨2, 0⟩ ⟨3, 5⟩ ≠
      rdpq_sort3_quantized ⟨1, 1/10⟩ ⟨2, 0⟩ ⟨3, 5⟩ ∧
    rdpq_sort3 ⟨1, 1/10⟩ ⟨2, 0⟩ ⟨3, 5⟩ = (⟨2, 0⟩, ⟨1, 1/10⟩, ⟨3, 5⟩) ∧
    rdpq_sort3_quantized ⟨1, 1/10⟩ ⟨2, 0⟩ ⟨3, 5⟩ =
      (⟨1, 1/10⟩, ⟨2, 0⟩, ⟨3, 5⟩) := by
  have h1 : rdpq_sort3 ⟨1, 1/10⟩ ⟨2, 0⟩ ⟨3, 5⟩ = (⟨2, 0⟩, ⟨1, 1/10⟩, ⟨3, 5⟩) := by
    norm_num [rdpq_sort3]
  have hq : quantY (1/10) = 0 := by
    unfold quantY
    norm_num
  have h2 : rdpq_sort3_quantized ⟨1, 1/10⟩ ⟨2, 0⟩ ⟨3, 5⟩ =
      (⟨1, 1/10⟩, ⟨2, 0⟩, ⟨3, 5⟩) := by
    norm_num [rdpq_sort3_quantized, hq, quantY]
  refine ⟨?_, h1, h2⟩
  rw [h1, h2]
  intro h
  have hx := congrArg (fun t => t.1.x) h
  norm_num at hx

/-- C1 (amended): `rdpq_triangle` reorders the three vertices before
coefficient computation so that `y1 ≤ y2 ≤ y3` holds on the raw
floating-point Y values — hence also after quantization of each Y to signed
10.2 fixed point, quantization being monotone — but the comparisons that
drive the sort are made on the raw Y values, not on the quantized ones. -/
theorem rdpq_sort3_sorted (v1 v2 v3 : Vtx) :
    ((rdpq_sort3 v1 v2 v3).1.y ≤ (rdpq_sort3 v1 v2 v3).2.1.y ∧
      (rdpq_sort3 v1 v2 v3).2.1.y ≤ (rdpq_sort3 v1 v2 v3).2.2.y) ∧
    (quantY (rdpq_sort3 v1 v2 v3).1.y ≤ quantY (rdpq_sort3 v1 v2 v3).2.1.y ∧
      quantY (rdpq_sort3 v1 v2 v3).2.1.y ≤ quantY (rdpq_sort3 v1 v2 v3).2.2.y) := by
  simp only [rdpq_sort3]
  split_ifs <;> dsimp only <;>
    simp only [not_lt] at * <;>
    refine ⟨⟨?_, ?_⟩, ?_, ?_⟩ <;>
    first
      | linarith
      | exact quantY_mono (by linarith)

/-! ### Theorems about `float_to_s16_16` -/

theorem float_to_s16_16_floor {x : ℚ} (h₁ : -32768 ≤ x) (h₂ : x < 32768) :
    float_to_s16_16 x = ⌊x * 65536⌋ := by
  unfold float_to_s16_16
  rw [if_neg (by linarith), if_neg (by linarith)]

theorem float_to_s16_16_lower {x : ℚ} (h : -32768 ≤ x) :
    -0x80000000 ≤ float_to_s16_16 x := by
  unfold float_to_s16_16
  split_ifs with hge hlt
  · norm_num
  · linarith
  · have : ((-0x80000000 : ℤ) : ℚ) ≤ x * 65536 := by push_cast; linarith
    exact Int.le_floor.mpr this

theorem float_to_s16_16_upper {x : ℚ} : float_to_s16_16 x ≤ 0x7FFFFFFF := by
  unfold float_to_s16_16
  split_ifs with hge hlt
  · exact le_refl _
  · norm_num
  · push_neg at hge
    have hlt2 : ⌊x * 65536⌋ < 0x80000000 := by
      refine Int.floor_lt.mpr ?_
      push_cast
      linarith
    omega

theorem float_to_s16_16_ge (x : ℚ) : -0x80000000 ≤ float_to_s16_16 x := by
  unfold float_to_s16_16
  split_ifs with hge hlt
  · norm_num
  · exact le_refl _
  · push_neg at hlt
    have : ((-0x80000000 : ℤ) : ℚ) ≤ x * 65536 := by push_cast; linarith
    exact Int.le_floor.mpr this

/-- C8: `float_to_s16_16` is monotone non-decreasing over all (finite float,
modelled as rational) inputs; on `[-32768, 32768)` it returns
`floor(x * 65536)`; for `x ≥ 32768` it returns `0x7FFFFFFF`; and for
`x < -32768` it returns the `int32` whose two's-complement bit pattern is
`0x80000000` (i.e. the value `-2^31`). -/
theorem float_to_s16_16_spec :
    Monotone float_to_s16_16 ∧
    (∀ x : ℚ, -32768 ≤ x → x < 32768 → float_to_s16_16 x = ⌊x * 65536⌋) ∧
    (∀ x : ℚ, 32768 ≤ x → float_to_s16_16 x = 0x7FFFFFFF) ∧
    (∀ x : ℚ, x < -32768 → float_to_s16_16 x = -0x80000000) ∧
    (-0x80000000 : ℤ) % 2 ^ 32 = 0x80000000 := by
  refine ⟨?_, ?_, ?_, ?_, by norm_num⟩
  · intro a b hab
    by_cases hb1 : (32768 : ℚ) ≤ b
    · have hb : float_to_s16_16 b = 0x7FFFFFFF := by
        unfold float_to_s16_16
        rw [if_pos hb1]
      rw [hb]
      exact float_to_s16_16_upper
    · by_cases ha2 : a < -32768
      · have ha : float_to_s16_16 a = -0x80000000 := by
          unfold float_to_s16_16
          rw [if_neg (by linarith), if_pos ha2]
        rw [ha]
        exact float_to_s16_16_ge b
      · push_neg at hb1 ha2
        rw [float_to_s16_16_floor ha2 (lt_of_le_of_lt hab hb1),
          float_to_s16_16_floor (le_trans ha2 hab) hb1]
        exact Int.floor_le_floor (by linarith)
  · intro x h₁ h₂
    exact float_to_s16_16_floor h₁ h₂
  · intro x h
    unfold float_to_s16_16
    rw [if_pos h]
  · intro x h
    unfold float_to_s16_16
    rw [if_neg (by linarith), if_pos h]

/-- Witness for C8: the theorem applied at the concrete inputs `-40000`,
`1/2` and `40000`. -/
theorem float_to_s16_16_spec_witness :
    float_to_s16_16 (-40000) = -0x80000000 ∧
    float_to_s16_16 (1/2) = ⌊(1/2 : ℚ) * 65536⌋ ∧
    float_to_s16_16 40000 = 0x7FFFFFFF ∧
    float_to_s16_16 (-40000) ≤ float_to_s16_16 40000 :=
  ⟨float_to_s16_16_spec.2.2.2.1 (-40000) (by norm_num),
   float_to_s16_16_spec.2.1 (1/2) (by norm_num) (by norm_num),
   float_to_s16_16_spec.2.2.1 40000 (by norm_num),
   float_to_s16_16_spec.1 (by norm_num : (-40000 : ℚ) ≤ 40000)⟩

/-! ### The shade-coefficient packer (`__rdpq_write_shade_coeffs`, rdpq.c 515-530)

The 12 `*_fixed` values are `int32_t`; they are modelled here as 32-bit
two's-complement patterns (`ℕ < 2 ^ 32`).  The C packing expressions map as
follows on patterns:
* `x & 0xffff0000`                → `x &&& 0xFFFF0000`;
* `0xffff & (x >> 16)`            → `0xFFFF &&& (x >>> 16)` (the arithmetic
  shift's sign-extension bits are removed by the `0xffff` mask, so logical
  shift followed by the mask computes the same value);
* `x << 16` (stored in `uint32`)  → `(x <<< 16) &&& 0xFFFFFFFF`;
* `x & 0xffff`                    → `x &&& 0xFFFF`;
* `x && 0xffff` (the logical-AND typo at rdpq.c 529-530) → `1` when the
  pattern is nonzero and `0` otherwise, since `0xffff` is itself nonzero. -/

/-- C logical AND `x && 0xffff` on an `int32` pattern. -/
def land_ffff (x : ℕ) : ℕ := if x ≠ 0 then 1 else 0

/-- The 16 32-bit argument words emitted by `__rdpq_write_shade_coeffs`
(rdpq.c 515-530), in emission order. -/
def __rdpq_write_shade_coeffs (final_r final_g final_b final_a
    DrDx_fixed DgDx_fixed DbDx_fixed DaDx_fixed
    DrDe_fixed DgDe_fixed DbDe_fixed DaDe_fixed
    DrDy_fixed DgDy_fixed DbDy_fixed DaDy_fixed : ℕ) : List ℕ :=
  [ (final_r &&& 0xFFFF0000) ||| (0xFFFF &&& (final_g >>> 16)),
    (final_b &&& 0xFFFF0000) ||| (0xFFFF &&& (final_a >>> 16)),
    (DrDx_fixed &&& 0xFFFF0000) ||| (0xFFFF &&& (DgDx_fixed >>> 16)),
    (DbDx_fixed &&& 0xFFFF0000) ||| (0xFFFF &&& (DaDx_fixed >>> 16)),
    ((final_r <<< 16) &&& 0xFFFFFFFF) ||| (final_g &&& 0xFFFF),
    ((final_b <<< 16) &&& 0xFFFFFFFF) ||| (final_a &&& 0xFFFF),
    ((DrDx_fixed <<< 16) &&& 0xFFFFFFFF) ||| (DgDx_fixed &&& 0xFFFF),
    ((DbDx_fixed <<< 16) &&& 0xFFFFFFFF) ||| (DaDx_fixed &&& 0xFFFF),
    (DrDe_fixed &&& 0xFFFF0000) ||| (0xFFFF &&& (DgDe_fixed >>> 16)),
    (DbDe_fixed &&& 0xFFFF0000) ||| (0xFFFF &&& (DaDe_fixed >>> 16)),
    (DrDy_fixed &&& 0xFFFF0000) ||| (0xFFFF &&& (DgDy_fixed >>> 16)),
    (DbDy_fixed &&& 0xFFFF0000) ||| (0xFFFF &&& (DaDy_fixed >>> 16)),
    ((DrDe_fixed <<< 16) &&& 0xFFFFFFFF) ||| (DgDe_fixed &&& 0xFFFF),
    ((DbDe_fixed <<< 16) &&& 0xFFFFFFFF) ||| (DaDe_fixed &&& 0xFFFF),
    ((DrDy_fixed <<< 16) &&& 0xFFFFFFFF) ||| land_ffff DgDy_fixed,
    ((DbDy_fixed <<< 16) &&& 0xFFFFFFFF) ||| land_ffff DaDy_fixed ]

/-- Consecutive pairs of the 32-bit argument stream form the big-endian
64-bit command words the RDP consumes. -/
def pack64 : List ℕ → List ℕ
  | a :: b :: rest => ((a <<< 32) ||| b) :: pack64 rest
  | [a] => [a <<< 32]
  | [] => []

/-- C2 (code bug): in the shade-coefficient words, the 64-bit word carrying
the low halves of the per-Y slopes (word 7 of the shade block, two words
after word 5 which carries their high halves) does NOT contain the low
16 bits of `DgDy`: with `DgDy_fixed = 2` (all other inputs `0`), the slot
holds `2 && 0xffff = 1` instead of `2 & 0xffff = 2`, because of the logical
AND typo at rdpq.c 529-530.  (The same typo affects `DaDy`.) -/
theorem shade_coeffs_dgdy_low_bug :
    (((pack64 (__rdpq_write_shade_coeffs 0 0 0 0 0 0 0 0 0 0 0 0 0 2 0 0)).getD 7 0)
        >>> 32) &&& 0xFFFF = 1 ∧
    (((pack64 (__rdpq_write_shade_coeffs 0 0 0 0 0 0 0 0 0 0 0 0 0 2 0 0)).getD 5 0)
        >>> 32) &&& 0xFFFF = (2 >>> 16) &&& 0xFFFF ∧
    (2 : ℕ) &&& 0xFFFF = 2 ∧ (1 : ℕ) ≠ 2 := by
  decide

/-! ### Block buffer growth (`__rdpq_block_begin` / `__rdpq_block_next_buffer`,
rdpq.c 14-16, 203-219, 221-235) -/

/-- The size update at the end of `__rdpq_block_next_buffer`:
`if (rdpq_block_size < RDPQ_BLOCK_MAX_SIZE) rdpq_block_size *= 2;`. -/
def rdpq_block_grow_size (s : ℕ) : ℕ :=
  if s < RDPQ_BLOCK_MAX_SIZE then s * 2 else s

/-- Payload size, in 32-bit command words, of the n-th buffer (0-based)
allocated during one block recording: `__rdpq_block_begin` resets
`rdpq_block_size` to `RDPQ_BLOCK_MIN_SIZE`; every `__rdpq_block_next_buffer`
allocates a `rdpq_block_size`-word payload and then applies the growth
step. -/
def rdpq_block_nth_size : ℕ → ℕ
  | 0 => RDPQ_BLOCK_MIN_SIZE
  | n + 1 => rdpq_block_grow_size (rdpq_block_nth_size n)

/-- C3 (code bug): the first buffer holds 64 words and each of the next seven
holds double the previous, but because the doubling guard compares against
`RDPQ_BLOCK_MAX_SIZE = 4192` — a value the powers-of-two sequence
64, 128, …, 4096 never hits — the 8th buffer is allocated with an 8192-word
payload, exceeding the claimed 4192-word cap, and every later buffer stays at
8192 (no further doubling). -/
theorem rdpq_block_nth_size_spec :
    rdpq_block_nth_size 0 = 64 ∧
    (∀ n < 7, rdpq_block_nth_size (n + 1) = 2 * rdpq_block_nth_size n) ∧
    rdpq_block_nth_size 6 = 4096 ∧
    rdpq_block_nth_size 7 = 8192 ∧
    RDPQ_BLOCK_MAX_SIZE < rdpq_block_nth_size 7 ∧
    rdpq_block_nth_size 8 = rdpq_block_nth_size 7 := by
  decide

/-! ### Block lifecycle and the auto-sync save slot
(`__rdpq_block_begin` / `__rdpq_block_end` / `__rdpq_block_run` /
`__rdpq_block_free`, rdpq.c 221-269) -/

/-- A recorded block: `rdpq_block_t*` is a possibly-NULL pointer to a singly
linked chain of buffers; each node has a `next` pointer and an
`autosync_state` slot (only the first node's slot is ever written).
`BlockChain.nil` models the NULL pointer; the `cmds` payload is not needed by
the claims about the lifecycle. -/
inductive BlockChain where
  | nil : BlockChain
  | cons (autosync_state : ℕ) (next : BlockChain) : BlockChain
deriving DecidableEq

/-- The file-scope mutable state of rdpq.c that the block lifecycle touches
(`rdpq_autosync_state[2]`, `rdpq_block_active`, `rdpq_block_first`,
`rdpq_block_size`).  `rdpq_block` and `last_rdp_cmd` are modelled separately
with the submission glue. -/
structure RdpqGlobals where
  rdpq_autosync_state_0 : ℕ
  rdpq_autosync_state_1 : ℕ
  rdpq_block_active : Bool
  rdpq_block_first : BlockChain
  rdpq_block_size : ℕ
deriving DecidableEq

/-- `__rdpq_block_begin` (rdpq.c 221-235): set the active flag, reset the
chain and size, push the current dirty mask into the save slot and replace
the working mask with all-ones. -/
def __rdpq_block_begin (g : RdpqGlobals) : RdpqGlobals :=
  { g with
    rdpq_block_active := true
    rdpq_block_first := BlockChain.nil
    rdpq_block_size := RDPQ_BLOCK_MIN_SIZE
    rdpq_autosync_state_1 := g.rdpq_autosync_state_0
    rdpq_autosync_state_0 := 0xFFFFFFFF }

/-- `__rdpq_block_end` (rdpq.c 237-252): store the working mask into the
first buffer when one exists, restore the saved mask, clear the recording
state, and return the (possibly NULL) head of the chain. -/
def __rdpq_block_end (g : RdpqGlobals) : BlockChain × RdpqGlobals :=
  let ret :=
    match g.rdpq_block_first with
    | BlockChain.nil => BlockChain.nil
    | BlockChain.cons _ next => BlockChain.cons g.rdpq_autosync_state_0 next
  (ret,
    { g with
      rdpq_block_active := false
      rdpq_autosync_state_0 := g.rdpq_autosync_state_1
      rdpq_block_first := BlockChain.nil })

/-- `__rdpq_block_run` (rdpq.c 254-260): load the block's recorded mask as
the working mask; a NULL block leaves the state untouched. -/
def __rdpq_block_run (block : BlockChain) (g : RdpqGlobals) : RdpqGlobals :=
  match block with
  | BlockChain.nil => g
  | BlockChain.cons a _ => { g with rdpq_autosync_state_0 := a }

/-- `__rdpq_block_free` (rdpq.c 262-269): walk the chain releasing each
buffer; the result counts the buffers released. -/
def __rdpq_block_free : BlockChain → ℕ
  | BlockChain.nil => 0
  | BlockChain.cons _ next => __rdpq_block_free next + 1

/-- C4: beginning a block recording saves the current dirty-resource mask in
the save slot and replaces the working mask with all-ones; ending the
recording stores the working mask at that point into the block (when one was
allocated) and restores the saved mask; running a block sets the working
mask to the mask recorded in that block. -/
theorem block_autosync_discipline (g : RdpqGlobals) (a : ℕ) (next : BlockChain) :
    ((__rdpq_block_begin g).rdpq_autosync_state_0 = 0xFFFFFFFF ∧
      (__rdpq_block_begin g).rdpq_autosync_state_1 = g.rdpq_autosync_state_0) ∧
    (g.rdpq_block_first = BlockChain.cons a next →
      (__rdpq_block_end g).1 = BlockChain.cons g.rdpq_autosync_state_0 next) ∧
    ((__rdpq_block_end g).2.rdpq_autosync_state_0 = g.rdpq_autosync_state_1) ∧
    ((__rdpq_block_run (BlockChain.cons a next) g).rdpq_autosync_state_0 = a) := by
  refine ⟨⟨rfl, rfl⟩, ?_, rfl, rfl⟩
  intro h
  simp [__rdpq_block_end, h]

/-- Witness for C4 at a concrete state: working mask 3, saved mask 7, a
one-buffer chain recorded with stale mask 5. -/
def gEx : RdpqGlobals :=
  ⟨3, 7, true, BlockChain.cons 5 BlockChain.nil, 64⟩

theorem block_autosync_discipline_witness :
    (__rdpq_block_end gEx).1 = BlockChain.cons 3 BlockChain.nil ∧
    (__rdpq_block_run (BlockChain.cons 5 BlockChain.nil) gEx).rdpq_autosync_state_0 = 5 :=
  ⟨(block_autosync_discipline gEx 5 BlockChain.nil).2.1 rfl,
   (block_autosync_discipline gEx 5 BlockChain.nil).2.2.2⟩

/-! ### The SYNC_FULL interrupt bridge (`__rdpq_interrupt`, rdpq.c 50-73;
`rdpq_sync_full` / `rdpq_fence`, rdpq.c 130-134, 750-768) -/

/-- An externally visible action of the interrupt handler. -/
inductive IntEvent where
  | clearStatus : IntEvent
  | invokeCallback (addr arg : ℕ) : IntEvent
deriving DecidableEq

/-- `__rdpq_interrupt` (rdpq.c 50-73) as the ordered trace of its externally
visible actions, given the shadow copy `sync_full` of the last SYNC_FULL
command: extract `w0` (bits 32-55) and `w1` (bits 0-31), write
`SP_WSTATUS_CLEAR_SIG_RDPSYNCFULL` to the status register, and only then, if
`w0` is nonzero, call the callback reconstructed by ORing the
cached-segment bit `0x80000000`. -/
def __rdpq_interrupt (sync_full : ℕ) : List IntEvent :=
  let w0 := (sync_full >>> 32) &&& 0x00FFFFFF
  let w1 := sync_full &&& 0xFFFFFFFF
  IntEvent.clearStatus ::
    (if w0 ≠ 0 then [IntEvent.invokeCallback (w0 ||| 0x80000000) w1] else [])

/-- Modelled from the spec: `PhysicalAddr` (not under src/) maps a CPU
pointer to its physical address; the NULL pointer has physical address 0,
which is the only fact the claims use. -/
def PhysicalAddr (p : ℕ) : ℕ := p &&& 0x1FFFFFFF

/-- Overlay id (rdpq.c 18). -/
def RDPQ_OVL_ID : ℕ := 0xC <<< 28

/-- Modelled from the spec: the overlay command id of SYNC_FULL.  Its
numeric value is defined in a header that is not under src/; the interrupt
handler masks it away with `& 0x00FFFFFF`, so no claim depends on it. -/
def RDPQ_CMD_SYNC_FULL : ℕ := 0x09

/-- The shadow copy of the SYNC_FULL command built by
`rdpq_sync_full(callback, arg)` (rdpq.c 750-768): the high 32-bit word is
the command's first word `(RDPQ_OVL_ID + (cmd_id << 24)) | w0` with
`w0 = PhysicalAddr(callback)`, the low word is `w1 = arg`. -/
def rdpq_sync_full_shadow (callback arg : ℕ) : ℕ :=
  (((RDPQ_OVL_ID + (RDPQ_CMD_SYNC_FULL <<< 24)) ||| PhysicalAddr callback) <<< 32)
    ||| (arg &&& 0xFFFFFFFF)

/-- C9: in every execution of the SYNC_FULL interrupt handler, the status
bit is cleared strictly before the user callback is invoked: the first
event of the trace is the status clear, and any callback invocation occurs
at a strictly later position. -/
theorem interrupt_clears_before_callback (sync_full : ℕ) :
    (__rdpq_interrupt sync_full).head? = some IntEvent.clearStatus ∧
    ∀ i a b,
      (__rdpq_interrupt sync_full).get? i = some (IntEvent.invokeCallback a b) →
      ∃ j, j < i ∧ (__rdpq_interrupt sync_full).get? j = some IntEvent.clearStatus := by
  constructor
  · rfl
  · intro i a b h
    match i with
    | 0 =>
      exfalso
      simp only [__rdpq_interrupt, List.get?] at h
      exact IntEvent.noConfusion (Option.some.injEq _ _ ▸ h)
    | n + 1 =>
      exact ⟨0, Nat.succ_pos n, rfl⟩

/-- Witness for C9: a SYNC_FULL with callback field `0x123` and argument 7;
the invocation sits at position 1, after the status clear at position 0. -/
theorem interrupt_clears_before_callback_witness :
    (__rdpq_interrupt ((0x123 <<< 32) ||| 7)).head? = some IntEvent.clearStatus ∧
    ∃ j, j < 1 ∧
      (__rdpq_interrupt ((0x123 <<< 32) ||| 7)).get? j = some IntEvent.clearStatus :=
  ⟨(interrupt_clears_before_callback ((0x123 <<< 32) ||| 7)).1,
   (interrupt_clears_before_callback ((0x123 <<< 32) ||| 7)).2 1
     (0x123 ||| 0x80000000) 7 (by decide)⟩

/-- C10: ending a recording during which no command was written (so no
buffer was allocated, `rdpq_block_first == NULL`) returns a NULL handle and
still restores the saved dirty mask; running a NULL block leaves the state
unchanged; freeing a NULL block releases nothing; and the interrupt handler
invokes the callback iff the 24-bit callback field of the shadow copy is
nonzero — in particular a SYNC_FULL issued with a NULL callback, as by
`rdpq_fence` (`rdpq_sync_full(NULL, NULL)`), triggers no call. -/
theorem empty_block_and_null_callback (g : RdpqGlobals) (sf : ℕ) :
    (g.rdpq_block_first = BlockChain.nil →
      (__rdpq_block_end g).1 = BlockChain.nil ∧
      (__rdpq_block_end g).2.rdpq_autosync_state_0 = g.rdpq_autosync_state_1) ∧
    (__rdpq_block_run BlockChain.nil g = g) ∧
    (__rdpq_block_free BlockChain.nil = 0) ∧
    ((∃ a b, IntEvent.invokeCallback a b ∈ __rdpq_interrupt sf) ↔
      (sf >>> 32) &&& 0x00FFFFFF ≠ 0) ∧
    (__rdpq_interrupt (rdpq_sync_full_shadow 0 0) = [IntEvent.clearStatus]) := by
  refine ⟨?_, rfl, rfl, ?_, by decide⟩
  · intro h
    constructor
    · simp [__rdpq_block_end, h]
    · rfl
  · constructor
    · rintro ⟨a, b, hmem⟩ h0
      simp only [__rdpq_interrupt, h0, ne_eq, not_true_eq_false, if_false,
        List.mem_singleton] at hmem
      exact IntEvent.noConfusion hmem
    · intro h0
      refine ⟨((sf >>> 32) &&& 0x00FFFFFF) ||| 0x80000000, sf &&& 0xFFFFFFFF, ?_⟩
      simp only [__rdpq_interrupt, h0, ne_eq, not_false_eq_true, if_true]
      exact List.mem_cons_of_mem _ (List.mem_singleton.mpr rfl)

/-- Witness for C10: the empty-recording state and a SYNC_FULL shadow whose
callback field is 5. -/
def gNil : RdpqGlobals := ⟨3, 7, true, BlockChain.nil, 64⟩

theorem empty_block_and_null_callback_witness :
    ((__rdpq_block_end gNil).1 = BlockChain.nil ∧
      (__rdpq_block_end gNil).2.rdpq_autosync_state_0 = 7) ∧
    (∃ a b, IntEvent.invokeCallback a b ∈ __rdpq_interrupt (5 <<< 32)) :=
  ⟨(empty_block_and_null_callback gNil (5 <<< 32)).1 rfl,
   (empty_block_and_null_callback gNil (5 <<< 32)).2.2.2.1.mpr (by decide)⟩

/-! ### The auto-sync engine (`autosync_use` / `autosync_change` and the
`rdpq_sync_*` commands, rdpq.c 154-168, 770-786)

The dirty-resource bitmask layout (`AUTOSYNC_*`) and the configuration
flags (`RDPQ_CFG_AUTOSYNC*`) are defined in headers that are not under
src/.  Modelled from the spec: the mask has one bit per tile (8 tiles), one
bit per TMEM half (2) and a PIPE bit, all distinct; the three configuration
flags are distinct bits of `rdpq_config`.  The claims depend only on the
three classes being disjoint, which the spec fixes. -/

def AUTOSYNC_TILES : ℕ := 0xFF
def AUTOSYNC_TMEMS : ℕ := 0x300
def AUTOSYNC_PIPE : ℕ := 1 <<< 10

def RDPQ_CFG_AUTOSYNCPIPE : ℕ := 1
def RDPQ_CFG_AUTOSYNCLOAD : ℕ := 2
def RDPQ_CFG_AUTOSYNCTILE : ℕ := 4

/-- A SYNC command emitted by the engine. -/
inductive SyncCmd where
  | sync_tile : SyncCmd
  | sync_load : SyncCmd
  | sync_pipe : SyncCmd
deriving DecidableEq

/-- `rdpq_sync_tile` (rdpq.c 776-780) on the dirty mask:
`rdpq_autosync_state[0] &= ~AUTOSYNC_TILES` (32-bit complement). -/
def rdpq_sync_tile_mask (dirty : ℕ) : ℕ :=
  dirty &&& (0xFFFFFFFF ^^^ AUTOSYNC_TILES)

/-- `rdpq_sync_load` (rdpq.c 782-786) on the dirty mask. -/
def rdpq_sync_load_mask (dirty : ℕ) : ℕ :=
  dirty &&& (0xFFFFFFFF ^^^ AUTOSYNC_TMEMS)

/-- `rdpq_sync_pipe` (rdpq.c 770-774) on the dirty mask. -/
def rdpq_sync_pipe_mask (dirty : ℕ) : ℕ :=
  dirty &&& (0xFFFFFFFF ^^^ AUTOSYNC_PIPE)

/-- `autosync_change(res)` (rdpq.c 158-168): restrict `res` to the
currently-dirty bits; when the intersection is nonempty emit SYNC_TILE,
SYNC_LOAD, SYNC_PIPE — in that order — for the classes that intersect and
whose configuration flag is on, each emitted sync clearing its whole class
from the dirty mask.  Returns the new dirty mask and the emitted commands
in order. -/
def autosync_change (cfg dirty res0 : ℕ) : ℕ × List SyncCmd :=
  let res := res0 &&& dirty
  if res = 0 then (dirty, [])
  else
    let s1 :=
      if res &&& AUTOSYNC_TILES ≠ 0 ∧ cfg &&& RDPQ_CFG_AUTOSYNCTILE ≠ 0 then
        (rdpq_sync_tile_mask dirty, [SyncCmd.sync_tile])
      else (dirty, [])
    let s2 :=
      if res &&& AUTOSYNC_TMEMS ≠ 0 ∧ cfg &&& RDPQ_CFG_AUTOSYNCLOAD ≠ 0 then
        (rdpq_sync_load_mask s1.1, s1.2 ++ [SyncCmd.sync_load])
      else s1
    let s3 :=
      if res &&& AUTOSYNC_PIPE ≠ 0 ∧ cfg &&& RDPQ_CFG_AUTOSYNCPIPE ≠ 0 then
        (rdpq_sync_pipe_mask s2.1, s2.2 ++ [SyncCmd.sync_pipe])
      else s2
    s3

theorem sync_tile_mask_clears (a : ℕ) :
    rdpq_sync_tile_mask a &&& AUTOSYNC_TILES = 0 := by
  have h : ((0xFFFFFFFF : ℕ) ^^^ AUTOSYNC_TILES) &&& AUTOSYNC_TILES = 0 := by decide
  rw [rdpq_sync_tile_mask, Nat.and_assoc, h, Nat.and_zero]

theorem sync_load_mask_clears (a : ℕ) :
    rdpq_sync_load_mask a &&& AUTOSYNC_TMEMS = 0 := by
  have h : ((0xFFFFFFFF : ℕ) ^^^ AUTOSYNC_TMEMS) &&& AUTOSYNC_TMEMS = 0 := by decide
  rw [rdpq_sync_load_mask, Nat.and_assoc, h, Nat.and_zero]

theorem sync_pipe_mask_clears (a : ℕ) :
    rdpq_sync_pipe_mask a &&& AUTOSYNC_PIPE = 0 := by
  have h : ((0xFFFFFFFF : ℕ) ^^^ AUTOSYNC_PIPE) &&& AUTOSYNC_PIPE = 0 := by decide
  rw [rdpq_sync_pipe_mask, Nat.and_assoc, h, Nat.and_zero]

theorem sync_load_mask_tiles (a : ℕ) :
    rdpq_sync_load_mask a &&& AUTOSYNC_TILES = a &&& AUTOSYNC_TILES := by
  have h : ((0xFFFFFFFF : ℕ) ^^^ AUTOSYNC_TMEMS) &&& AUTOSYNC_TILES = AUTOSYNC_TILES := by
    decide
  rw [rdpq_sync_load_mask, Nat.and_assoc, h]

theorem sync_pipe_mask_tiles (a : ℕ) :
    rdpq_sync_pipe_mask a &&& AUTOSYNC_TILES = a &&& AUTOSYNC_TILES := by
  have h : ((0xFFFFFFFF : ℕ) ^^^ AUTOSYNC_PIPE) &&& AUTOSYNC_TILES = AUTOSYNC_TILES := by
    decide
  rw [rdpq_sync_pipe_mask, Nat.and_assoc, h]

theorem sync_tile_mask_tmems (a : ℕ) :
    rdpq_sync_tile_mask a &&& AUTOSYNC_TMEMS = a &&& AUTOSYNC_TMEMS := by
  have h : ((0xFFFFFFFF : ℕ) ^^^ AUTOSYNC_TILES) &&& AUTOSYNC_TMEMS = AUTOSYNC_TMEMS := by
    decide
  rw [rdpq_sync_tile_mask, Nat.and_assoc, h]

theorem sync_pipe_mask_tmems (a : ℕ) :
    rdpq_sync_pipe_mask a &&& AUTOSYNC_TMEMS = a &&& AUTOSYNC_TMEMS := by
  have h : ((0xFFFFFFFF : ℕ) ^^^ AUTOSYNC_PIPE) &&& AUTOSYNC_TMEMS = AUTOSYNC_TMEMS := by
    decide
  rw [rdpq_sync_pipe_mask, Nat.and_assoc, h]

theorem sync_tile_mask_pipe (a : ℕ) :
    rdpq_sync_tile_mask a &&& AUTOSYNC_PIPE = a &&& AUTOSYNC_PIPE := by
  have h : ((0xFFFFFFFF : ℕ) ^^^ AUTOSYNC_TILES) &&& AUTOSYNC_PIPE = AUTOSYNC_PIPE := by
    decide
  rw [rdpq_sync_tile_mask, Nat.and_assoc, h]

theorem sync_load_mask_pipe (a : ℕ) :
    rdpq_sync_load_mask a &&& AUTOSYNC_PIPE = a &&& AUTOSYNC_PIPE := by
  have h : ((0xFFFFFFFF : ℕ) ^^^ AUTOSYNC_TMEMS) &&& AUTOSYNC_PIPE = AUTOSYNC_PIPE := by
    decide
  rw [rdpq_sync_load_mask, Nat.and_assoc, h]

/-- C5: for every `autosync_change(mask)` call — if the dirty mask does not
intersect `mask`, nothing is emitted and the dirty mask is unchanged; if it
does, the emitted commands are exactly SYNC_TILE (when a dirty tile bit is
in the intersection and the tile class is enabled), then SYNC_LOAD (TMEM
bits, load class enabled), then SYNC_PIPE (pipe bit, pipe class enabled), in
that order, and each emitted class's dirty bits end cleared while a
suppressed or non-intersecting class's dirty bits are left unchanged. -/
theorem autosync_change_spec (cfg dirty mask : ℕ) :
    (mask &&& dirty = 0 → autosync_change cfg dirty mask = (dirty, [])) ∧
    (mask &&& dirty ≠ 0 →
      (autosync_change cfg dirty mask).2 =
        (if mask &&& dirty &&& AUTOSYNC_TILES ≠ 0 ∧ cfg &&& RDPQ_CFG_AUTOSYNCTILE ≠ 0
          then [SyncCmd.sync_tile] else []) ++
        (if mask &&& dirty &&& AUTOSYNC_TMEMS ≠ 0 ∧ cfg &&& RDPQ_CFG_AUTOSYNCLOAD ≠ 0
          then [SyncCmd.sync_load] else []) ++
        (if mask &&& dirty &&& AUTOSYNC_PIPE ≠ 0 ∧ cfg &&& RDPQ_CFG_AUTOSYNCPIPE ≠ 0
          then [SyncCmd.sync_pipe] else []) ∧
      (autosync_change cfg dirty mask).1 &&& AUTOSYNC_TILES =
        (if mask &&& dirty &&& AUTOSYNC_TILES ≠ 0 ∧ cfg &&& RDPQ_CFG_AUTOSYNCTILE ≠ 0
          then 0 else dirty &&& AUTOSYNC_TILES) ∧
      (autosync_change cfg dirty mask).1 &&& AUTOSYNC_TMEMS =
        (if mask &&& dirty &&& AUTOSYNC_TMEMS ≠ 0 ∧ cfg &&& RDPQ_CFG_AUTOSYNCLOAD ≠ 0
          then 0 else dirty &&& AUTOSYNC_TMEMS) ∧
      (autosync_change cfg dirty mask).1 &&& AUTOSYNC_PIPE =
        (if mask &&& dirty &&& AUTOSYNC_PIPE ≠ 0 ∧ cfg &&& RDPQ_CFG_AUTOSYNCPIPE ≠ 0
          then 0 else dirty &&& AUTOSYNC_PIPE)) := by
  constructor
  · intro h0
    simp [autosync_change, h0]
  · intro h0
    by_cases hT : mask &&& dirty &&& AUTOSYNC_TILES ≠ 0 ∧ cfg &&& RDPQ_CFG_AUTOSYNCTILE ≠ 0 <;>
    by_cases hL : mask &&& dirty &&& AUTOSYNC_TMEMS ≠ 0 ∧ cfg &&& RDPQ_CFG_AUTOSYNCLOAD ≠ 0 <;>
    by_cases hP : mask &&& dirty &&& AUTOSYNC_PIPE ≠ 0 ∧ cfg &&& RDPQ_CFG_AUTOSYNCPIPE ≠ 0 <;>
    simp [autosync_change, h0, hT, hL, hP, sync_tile_mask_clears,
      sync_load_mask_clears, sync_pipe_mask_clears, sync_load_mask_tiles,
      sync_pipe_mask_tiles, sync_tile_mask_tmems, sync_pipe_mask_tmems,
      sync_tile_mask_pipe, sync_load_mask_pipe]

/-- Witness for C5: all classes enabled, everything dirty, a change touching
tile 0 and the pipe: SYNC_TILE then SYNC_PIPE are emitted, the tile and pipe
classes end cleared, the TMEM class stays dirty. -/
theorem autosync_change_spec_witness :
    (autosync_change 7 0xFFFFFFFF 0x401).2 = [SyncCmd.sync_tile, SyncCmd.sync_pipe] ∧
    (autosync_change 7 0xFFFFFFFF 0x401).1 &&& AUTOSYNC_TILES = 0 ∧
    (autosync_change 7 0xFFFFFFFF 0x401).1 &&& AUTOSYNC_TMEMS = AUTOSYNC_TMEMS ∧
    (autosync_change 7 0xFFFFFFFF 0x401).1 &&& AUTOSYNC_PIPE = 0 := by
  have h := (autosync_change_spec 7 0xFFFFFFFF 0x401).2 (by decide)
  refine ⟨?_, ?_, ?_, ?_⟩
  · rw [h.1]; decide
  · rw [h.2.1]; decide
  · rw [h.2.2.1]; decide
  · rw [h.2.2.2]; decide

/-! ### Validator tile-busy marking (`use_tile` / `cc_use_tex1`,
rdpq_debug.c 681-692, 862-916) -/

/-- One cycle's RGB color-combiner slots (`struct cc_cycle_s`'s `rgb`
member; `cc_use_tex1` reads only these fields). -/
structure cc_rgb_s where
  suba : ℕ
  subb : ℕ
  mul : ℕ
  add : ℕ
deriving DecidableEq

/-- The part of the validator's shadow state `rdp` that `cc_use_tex1` and
the busy-marking in `use_tile` consult. -/
structure RdpShadow where
  cycle_type : ℕ
  tf_mode : ℕ
  cc_cyc0 : cc_rgb_s
  cc_cyc1 : cc_rgb_s
deriving DecidableEq

/-- `cc_use_tex1` (rdpq_debug.c 681-692): true iff the current color
combiner uses the second texture slot in two-cycle mode.  The comparison
`cc[0].rgb.mul == 8` in the cycle-1 disjunct is transcribed as in the
source (it reads cycle 0's `mul`). -/
def cc_use_tex1 (rdp : RdpShadow) : Bool :=
  if rdp.cycle_type ≠ 1 then false
  else if rdp.tf_mode &&& 3 = 1 then false
  else
    decide (rdp.cc_cyc0.suba = 2 ∨ rdp.cc_cyc0.subb = 2 ∨ rdp.cc_cyc0.mul = 2 ∨
      rdp.cc_cyc0.mul = 9 ∨ rdp.cc_cyc0.add = 2) ||
    decide (rdp.cc_cyc1.suba = 1 ∨ rdp.cc_cyc1.subb = 1 ∨ rdp.cc_cyc1.mul = 1 ∨
      rdp.cc_cyc0.mul = 8 ∨ rdp.cc_cyc1.add = 1)

/-- The indices of `rdp.busy.tile[]` (and `rdp.tile[]`) touched by
`use_tile(tidx, cycle)` (rdpq_debug.c 862-916): the body marks
`busy.tile[tidx]`, and when `cycle == 0` and `cc_use_tex1()` holds it ends
with `use_tile(tidx+1, 1)`, whose own tail-guard `cycle == 0` is false, so
the recursion contributes exactly the index `tidx + 1`. -/
def use_tile_marks (rdp : RdpShadow) (tidx cycle : ℕ) : List ℕ :=
  [tidx] ++ (if cycle = 0 ∧ cc_use_tex1 rdp = true then [tidx + 1] else [])

/-- A shadow state in 2-cycle mode whose combiner references TEX1 in
cycle 0. -/
def rdp_tex1_2cyc : RdpShadow := ⟨1, 0, ⟨2, 0, 0, 0⟩, ⟨0, 0, 0, 0⟩⟩

/-- C6 (code bug): a draw reading tile `t` marks `busy.tile[t]`, and marks
`busy.tile[t+1]` when the combiner uses TEX1 in two-cycle mode; for
`t < 7` every touched index is inside the 8-entry tile arrays, but for
`t = 7` the second access touches index 8 — one past the end of
`rdp.busy.tile[8]` and `rdp.tile[8]`. -/
theorem use_tile_out_of_bounds :
    use_tile_marks rdp_tex1_2cyc 7 0 = [7, 8] ∧
    (∀ t, t < 7 → ∀ i ∈ use_tile_marks rdp_tex1_2cyc t 0, i < 8) ∧
    ¬ (∀ i ∈ use_tile_marks rdp_tex1_2cyc 7 0, i < 8) := by
  decide

/-! ### Submission coalescing (`__rdpq_block_flush`, rdpq.c 170-189)

The CP dynamic stream is modelled as the list of 32-bit words written so
far; `rspq_cur_pointer` is its length and `last_rdp_cmd` the index of the
first word of the last CP-level submit, `none` for NULL.  `rspq_int_write`
is defined in a header that is not under src/; modelled from the spec's
`submit_rdp(start_phys, end_phys)` primitive, consistently with the in-place
patch at rdpq.c 183, it appends the word `(RSPQ_CMD_RDP << 24) | phys_end`
followed by `phys_start`. -/

/-- Modelled from the spec: the CP-level submit opcode (`RSPQ_CMD_RDP`).
Its numeric value lives in a header that is not under src/; no claim
depends on it. -/
def RSPQ_CMD_RDP : ℕ := 0x4

structure RspqState where
  words : List ℕ
  last_rdp_cmd : Option ℕ
deriving DecidableEq

/-- `__rdpq_block_flush(start, end)` (rdpq.c 170-189): when the last submit
exists, sits exactly 2 words back (`diff == 2`, i.e. nothing else was
emitted since) and its recorded end pointer (the low 24 bits of its first
word) equals the new physical start, patch that submit's first word in
place to carry the new end; otherwise remember the current write position
and append a fresh submit.  A NULL `last_rdp_cmd` makes the C `diff`
computation a bogus huge value, never 2, so it always takes the fresh-submit
branch. -/
def __rdpq_block_flush (s : RspqState) (phys_start phys_end : ℕ) : RspqState :=
  match s.last_rdp_cmd with
  | some i =>
    if s.words.length - i = 2 ∧ (s.words.getD i 0) &&& 0xFFFFFF = phys_start then
      { s with words := s.words.set i ((RSPQ_CMD_RDP <<< 24) ||| phys_end) }
    else
      { words := s.words ++ [(RSPQ_CMD_RDP <<< 24) ||| phys_end, phys_start],
        last_rdp_cmd := some s.words.length }
  | none =>
      { words := s.words ++ [(RSPQ_CMD_RDP <<< 24) ||| phys_end, phys_start],
        last_rdp_cmd := some s.words.length }

/-- C7: a block-path flush whose physical start equals the end pointer
recorded in the most recent CP-level submit, with no CP command emitted in
between (the submit's two words are the last two words of the stream),
patches that submit's end pointer in place — no word is appended and
`last_rdp_cmd` is unchanged; in every other case (stale submit position,
non-contiguous range, or no previous submit) a fresh two-word submit is
appended and its location remembered. -/
theorem block_flush_coalesce (s : RspqState) (ps pe i : ℕ) :
    (s.last_rdp_cmd = some i → s.words.length = i + 2 →
      (s.words.getD i 0) &&& 0xFFFFFF = ps →
      (__rdpq_block_flush s ps pe).words =
          s.words.set i ((RSPQ_CMD_RDP <<< 24) ||| pe) ∧
      (__rdpq_block_flush s ps pe).last_rdp_cmd = s.last_rdp_cmd ∧
      (__rdpq_block_flush s ps pe).words.length = s.words.length) ∧
    (s.last_rdp_cmd = some i →
      s.words.length ≠ i + 2 ∨ (s.words.getD i 0) &&& 0xFFFFFF ≠ ps →
      __rdpq_block_flush s ps pe =
        { words := s.words ++ [(RSPQ_CMD_RDP <<< 24) ||| pe, ps],
          last_rdp_cmd := some s.words.length }) ∧
    (s.last_rdp_cmd = none →
      __rdpq_block_flush s ps pe =
        { words := s.words ++ [(RSPQ_CMD_RDP <<< 24) ||| pe, ps],
          last_rdp_cmd := some s.words.length }) := by
  refine ⟨?_, ?_, ?_⟩
  · intro h h2 h3
    have hdiff : s.words.length - i = 2 := by omega
    have hcond : s.words.length - i = 2 ∧ (s.words.getD i 0) &&& 0xFFFFFF = ps :=
      ⟨hdiff, h3⟩
    simp only [__rdpq_block_flush, h]
    rw [if_pos hcond]
    exact ⟨rfl, rfl, by simp⟩
  · intro h hne
    have hcond : ¬(s.words.length - i = 2 ∧ (s.words.getD i 0) &&& 0xFFFFFF = ps) := by
      rcases hne with hne | hne
      · intro hc
        exact hne (by omega)
      · intro hc
        exact hne hc.2
    simp only [__rdpq_block_flush, h]
    rw [if_neg hcond]
  · intro h
    simp only [__rdpq_block_flush, h]

/-- Witness for C7: a stream holding exactly one submit covering
`[0x80, 0x100]` at position 0; flushing `[0x100, 0x180]` patches it in
place to cover up to `0x180`. -/
def sEx : RspqState :=
  ⟨[(RSPQ_CMD_RDP <<< 24) ||| 0x100, 0x80], some 0⟩

theorem block_flush_coalesce_witness :
    (__rdpq_block_flush sEx 0x100 0x180).words =
      sEx.words.set 0 ((RSPQ_CMD_RDP <<< 24) ||| 0x180) ∧
    (__rdpq_block_flush sEx 0x100 0x180).last_rdp_cmd = sEx.last_rdp_cmd ∧
    (__rdpq_block_flush sEx 0x100 0x180).words.length = sEx.words.length :=
  (block_flush_coalesce sEx 0x100 0x180 0).1 rfl (by decide) (by decide)

end Rdpq
